import Mathlib

/-!
Verification development for the pysportbot repository (resasports-bot).

The Python sources under pysportbot/ are shallowly embedded below:
pure day/time arithmetic becomes arithmetic on integer day indices and
seconds-of-day, stateful methods become explicit state-passing functions,
fallible calls return an explicit error channel, and the external
collaborators (HTTP session, pandas tables, wall clock) become explicit
parameters or environment records.  Days are counted so that day 0 is
Monday 2024-01-01; hence Python's datetime.weekday() is day % 7
(0 = Monday, ..., 6 = Sunday), matching DAY_MAP in the sources.
-/

namespace PySportBot

/-! ## Python primitives -/

/-- Result of a call into Python code: a normal return or a raised
exception, identified by its message text (`str(e)` in the sources). -/
inductive PyResult (α : Type) where
  | ok (val : α)
  | exn (msg : String)
deriving DecidableEq

/-- Exception classes raised by the embedded code. -/
inductive PyExn where
  | valueError (msg : String)
  | runtimeError (msg : String)
  | permissionError (msg : String)
  | indexError (msg : String)
deriving DecidableEq

/-- Boolean prefix test on character lists (helper for `py_in`). -/
def str_starts_with : List Char → List Char → Bool
  | [], _ => true
  | _ :: _, [] => false
  | c :: cs, d :: ds => c == d && str_starts_with cs ds

/-- Boolean substring test on character lists (helper for `py_in`). -/
def chars_contain (pat : List Char) : List Char → Bool
  | [] => str_starts_with pat []
  | d :: ds => str_starts_with pat (d :: ds) || chars_contain pat ds

/-- Python's `pat in hay` substring test on strings, used by
attempt_booking to classify error text. -/
def py_in (pat hay : String) : Bool :=
  chars_contain pat.toList hay.toList

/-- Python's str.lower(), character by character over the string data. -/
def py_lower (s : String) : String :=
  String.mk (s.data.map Char.toLower)

/-- Python's str.strip(): drop whitespace from both ends of the string. -/
def py_strip (s : String) : String :=
  String.mk (((s.data.dropWhile Char.isWhitespace).reverse.dropWhile Char.isWhitespace).reverse)

/-- Python dict access `d[key]` on a string-keyed literal dict, as an
association-list lookup (none embeds the KeyError). -/
def dict_get (key : String) : List (String × Nat) → Option Nat
  | [] => none
  | (k, v) :: rest => if key = k then some v else dict_get key rest

/-! ## pysportbot/utils/errors.py -/

/-- Source: utils/errors.py, ErrorMessages.not_logged_in. -/
def ErrorMessages.not_logged_in : String := "You must log in first."

/-- Source: utils/errors.py, ErrorMessages.no_activities_loaded. -/
def ErrorMessages.no_activities_loaded : String := "No activities loaded. Please log in first."

/-- Source: utils/errors.py, ErrorMessages.slot_not_found. -/
def ErrorMessages.slot_not_found (activity_name start_time : String) : String :=
  "No slot found for activity '" ++ activity_name ++ "' at " ++ start_time ++ "."

/-- Source: utils/errors.py, ErrorMessages.slot_already_booked. -/
def ErrorMessages.slot_already_booked : String := "The slot is already booked."

/-- Source: utils/errors.py, ErrorMessages.slot_unavailable. -/
def ErrorMessages.slot_unavailable : String := "The slot is not available."

/-- Source: utils/errors.py, ErrorMessages.unknown_error. -/
def ErrorMessages.unknown_error (action : String) : String :=
  "An unknown error occurred during " ++ action ++ ". Please try again later."

/-- Modelled from the spec: `ErrorMessages.slot_not_bookable_yet` is called by
pysportbot/bookings.py for platform error code 28 but its definition is absent
from src/pysportbot/utils/errors.py; per spec section 6, `book` fails with a
distinct NotYetBookable outcome. -/
def ErrorMessages.slot_not_bookable_yet : String := "The slot is not bookable yet."

/-- Modelled from the spec: `ErrorMessages.no_matching_slots_for_time` is called
by pysportbot/service/booking.py but its definition is absent from
src/pysportbot/utils/errors.py; per spec section 4.1 the no-matching-slot error
carries (activity, time, date) for diagnostics. -/
def ErrorMessages.no_matching_slots_for_time (activity class_time booking_date : String) : String :=
  "No matching slots found for activity '" ++ activity ++ "' at " ++ class_time ++
    " on " ++ booking_date ++ "."

/-- Modelled from the spec: `ErrorMessages.centre_not_found` is referenced by
src/tests/test_login.py but its definition is absent from
src/pysportbot/utils/errors.py; per spec section 6, login fails when the
selected centre is invalid. -/
def ErrorMessages.centre_not_found (centre : String) : String :=
  "The centre '" ++ centre ++ "' was not found."

/-! ## pysportbot/bookings.py -/

/-- The decoded JSON body of the platform's booking response: a success flag
and (when success is false) a numeric error code. -/
structure BookingResponse where
  success : Bool
  error : Int
deriving DecidableEq

/-- Source: bookings.py, Bookings.book.  The HTTP post is abstracted away:
the function classifies the decoded platform response.  Success returns
normally; error code 5 raises ValueError(slot_already_booked), code 6 raises
ValueError(slot_unavailable), code 28 raises ValueError(slot_not_bookable_yet),
and every other code raises RuntimeError(unknown_error "booking"). -/
def Bookings.book (response_json : BookingResponse) : Except PyExn Unit :=
  if response_json.success then Except.ok ()
  else
    let error_code := response_json.error
    if error_code = 5 then Except.error (PyExn.valueError ErrorMessages.slot_already_booked)
    else if error_code = 6 then Except.error (PyExn.valueError ErrorMessages.slot_unavailable)
    else if error_code = 28 then Except.error (PyExn.valueError ErrorMessages.slot_not_bookable_yet)
    else Except.error (PyExn.runtimeError (ErrorMessages.unknown_error "booking"))

/-! ## pysportbot/service: threading policy -/

/-- Modelled from the spec: pysportbot/service/threading.py is absent from src
(only its callers and its tests in src/tests/test_service.py are present).
Spec section 4.5 thread-count policy: requested 0 is a configuration error;
zero bookings yield 0 workers; requested -1 is auto (min of available
parallelism and bookings); otherwise min(requested, parallelism, bookings).
`cpu_count` stands for os.cpu_count(). -/
def get_n_threads (max_user_threads : Int) (n_bookings : Nat) (cpu_count : Nat) :
    Except String Int :=
  if max_user_threads = 0 then
    Except.error "Invalid number of threads requested."
  else if n_bookings = 0 then
    Except.ok 0
  else if max_user_threads = -1 then
    Except.ok (min (cpu_count : Int) (n_bookings : Int))
  else
    Except.ok (min max_user_threads (min (cpu_count : Int) (n_bookings : Int)))

/-! ## Day and time arithmetic (pysportbot/service.py and the scheduling module)

A local calendar date is a day index (day 0 = Monday 2024-01-01), so Python's
datetime.weekday() is `day % 7`; a local instant additionally carries the
seconds elapsed since local midnight.  The fixed IANA timezone of the sources
only localizes the values and never changes this arithmetic, so it is not
modelled. -/

/-- Source: service.py line 18 (also config_validator): weekday-name table. -/
def DAY_MAP : List (String × Nat) :=
  [("monday", 0), ("tuesday", 1), ("wednesday", 2), ("thursday", 3),
   ("friday", 4), ("saturday", 5), ("sunday", 6)]

/-- Python datetime.weekday() on a day index (0 = Monday, ..., 6 = Sunday). -/
def weekday (day : Nat) : Nat := day % 7

/-- A timezone-localized instant: calendar day index plus seconds since local
midnight (the embedded form of an aware datetime). -/
structure LocalDateTime where
  day : Nat
  tod : Nat
deriving DecidableEq

/-- A booking_execution specification, after the string-splitting of
service.py line 93: either the literal "now" or a weekday name together with
the strptime-parsed %H:%M:%S time of day (as seconds since midnight). -/
inductive BookingExecution where
  | now
  | dayTime (execution_day : String) (exec_time : Nat)
deriving DecidableEq

/-- Source: service.py lines 75-121, calculate_next_execution.  Given the
parsed booking_execution spec and the current instant, return the next
execution instant, or none when the weekday name is not in DAY_MAP (Python
raises KeyError there). -/
def calculate_next_execution (booking_execution : BookingExecution)
    (now : LocalDateTime) : Option LocalDateTime :=
  match booking_execution with
  | BookingExecution.now => some now
  | BookingExecution.dayTime execution_day exec_time =>
    match dict_get (py_strip (py_lower execution_day)) DAY_MAP with
    | none => none
    | some day_of_week_target =>
      let current_weekday := weekday now.day
      if day_of_week_target = current_weekday ∧ now.tod < exec_time then
        some { day := now.day, tod := exec_time }
      else
        let days_ahead : Int := (day_of_week_target : Int) - (current_weekday : Int)
        let days_ahead := if days_ahead ≤ 0 then days_ahead + 7 else days_ahead
        some { day := now.day + days_ahead.toNat, tod := exec_time }

/-- Source: service.py lines 124-131, calculate_class_day.  Returns the day
index of `now + timedelta(days=days_ahead)` where days_ahead is the weekday
difference bumped by 7 only when strictly negative, or none when the weekday
name is not in DAY_MAP (Python raises KeyError there). -/
def calculate_class_day (class_day : String) (now_day : Nat) : Option Nat :=
  match dict_get (py_strip (py_lower class_day)) DAY_MAP with
  | none => none
  | some target_weekday =>
    let days_ahead : Int := (target_weekday : Int) - (weekday now_day : Int)
    let days_ahead := if days_ahead < 0 then days_ahead + 7 else days_ahead
    some (now_day + days_ahead.toNat)

/-- Modelled from the spec: pysportbot/service/scheduling.py (the module
imported by pysportbot/service/booking.py and exercised by the
TestScheduling cases of src/tests/test_service.py) is absent from src.
Spec section 4.2: next_class_day returns the next calendar date matching the
weekday, always strictly in the future; when today matches it advances a
full 7 days, so the weekday difference is bumped by 7 when less than or
equal to zero. -/
def scheduling.calculate_class_day (class_day : String) (now_day : Nat) : Option Nat :=
  match dict_get (py_strip (py_lower class_day)) DAY_MAP with
  | none => none
  | some target_weekday =>
    let days_ahead : Int := (target_weekday : Int) - (weekday now_day : Int)
    let days_ahead := if days_ahead ≤ 0 then days_ahead + 7 else days_ahead
    some (now_day + days_ahead.toNat)

/-! ## pysportbot/service/booking.py: attempt_booking -/

/-- A row of the daily_slots table as used by attempt_booking (service/booking.py
uses start_timestamp both to match and as the slot id passed to bot.book). -/
structure Slot where
  start_timestamp : String
deriving DecidableEq

/-- The external SportBot calls made by attempt_booking, per attempt number
(attempts are numbered from 1 as in the source): the daily_slots fetch may
return a table or raise, and book may return normally or raise. -/
structure BotEnv where
  daily_slots : Nat → String → String → PyResult (List Slot)
  book : Nat → String → String → PyResult Unit

/-- Observable events emitted by one run of attempt_booking. -/
inductive Ev where
  | slots_call (activity day : String)
  | book_call (activity slot_id : String)
  | retry_sleep (secs : Nat)
deriving DecidableEq

/-- The outcome of attempt_booking: the events it performed, and the
exception escaping to the caller if any (the source's catch-all handler
never re-raises, which the theorems below make explicit). -/
structure AttemptResult where
  events : List Ev
  escaped : Option String
deriving DecidableEq

/-- Source: service/booking.py lines 60-66: the pandas row filter
`available_slots[available_slots["start_timestamp"] == f"{booking_date} {class_time}"]`. -/
def matching_slots (available_slots : List Slot) (booking_date class_time : String) : List Slot :=
  available_slots.filter (fun s => s.start_timestamp == booking_date ++ " " ++ class_time)

/-- The try-block of one attempt of attempt_booking (service/booking.py lines
59-70): fetch the day's slots, filter for the exact start timestamp, raise
ValueError(no_matching_slots_for_time ...) when none match, otherwise book the
first match.  Returns the events performed and the raised message, if any. -/
def attempt_try (env : BotEnv) (attempt_num : Nat)
    (activity booking_date class_time : String) : List Ev × Option String :=
  match env.daily_slots attempt_num activity booking_date with
  | PyResult.exn msg => ([Ev.slots_call activity booking_date], some msg)
  | PyResult.ok available_slots =>
    match matching_slots available_slots booking_date class_time with
    | [] => ([Ev.slots_call activity booking_date],
             some (ErrorMessages.no_matching_slots_for_time activity class_time booking_date))
    | s :: _ =>
      match env.book attempt_num activity s.start_timestamp with
      | PyResult.ok _ =>
        ([Ev.slots_call activity booking_date, Ev.book_call activity s.start_timestamp], none)
      | PyResult.exn msg =>
        ([Ev.slots_call activity booking_date, Ev.book_call activity s.start_timestamp], some msg)

/-- The retry loop of attempt_booking (service/booking.py lines 56-86),
by recursion on the number of remaining attempts; the running attempt number
is `retry_attempts - remaining + 1` exactly as the Python
`for attempt_num in range(1, retry_attempts + 1)`.  A raised attempt is
caught; when the text contains slot_already_booked the function returns at
once, otherwise `time.sleep(retry_delay)` runs between attempts; exhaustion
only logs.  `booking_date` is recomputed each iteration in the source via
calculate_class_day, which is constant for the fixed "now" of this
embedding, so it is passed as a value. -/
def attempt_booking_go (env : BotEnv) (activity booking_date class_time : String)
    (retry_attempts retry_delay : Nat) : Nat → AttemptResult
  | 0 => { events := [], escaped := none }
  | remaining + 1 =>
    let attempt_num := retry_attempts - remaining
    let r := attempt_try env attempt_num activity booking_date class_time
    match r.2 with
    | none => { events := r.1, escaped := none }
    | some error_str =>
      if py_in ErrorMessages.slot_already_booked error_str then
        { events := r.1, escaped := none }
      else if attempt_num < retry_attempts then
        let rest := attempt_booking_go env activity booking_date class_time
          retry_attempts retry_delay remaining
        { events := r.1 ++ Ev.retry_sleep retry_delay :: rest.events, escaped := rest.escaped }
      else
        let rest := attempt_booking_go env activity booking_date class_time
          retry_attempts retry_delay remaining
        { events := r.1 ++ rest.events, escaped := rest.escaped }

/-- Source: service/booking.py lines 21-89, attempt_booking. -/
def attempt_booking (env : BotEnv) (activity booking_date class_time : String)
    (retry_attempts retry_delay : Nat) : AttemptResult :=
  attempt_booking_go env activity booking_date class_time retry_attempts retry_delay
    retry_attempts

/-- Number of book calls in an event trace. -/
def count_book_calls (evs : List Ev) : Nat :=
  (evs.filter fun e => match e with | Ev.book_call _ _ => true | _ => false).length

/-- Number of retry sleeps in an event trace. -/
def count_retry_sleeps (evs : List Ev) : Nat :=
  (evs.filter fun e => match e with | Ev.retry_sleep _ => true | _ => false).length

/-! ## pysportbot/service/booking.py: schedule_bookings wait phase -/

/-- Observable events of the wait/re-auth phase of schedule_bookings. -/
inductive CoEv where
  | sleep (secs : Int)
  | login
  | dispatch
deriving DecidableEq

/-- Source: service/booking.py lines 138-178 (the timing portion of
schedule_bookings), with wall-clock durations in integer seconds.  Python's
time.sleep raises ValueError("sleep length must be non-negative") for a
negative duration, embedded as the error branches.  `login_elapsed` is the
wall-clock time consumed by the (successful) re-authentication call, so the
second reading of `now` is `now + reauth_time + login_elapsed`. -/
def schedule_wait_phase (now execution_time login_elapsed booking_delay : Int) :
    Except String (List CoEv) :=
  let time_until_execution := execution_time - now
  if time_until_execution > 0 then
    let reauth_time := time_until_execution - 60
    if reauth_time < 0 then Except.error "sleep length must be non-negative"
    else
      let now2 := now + reauth_time + login_elapsed
      let remaining_time := execution_time - now2
      let tail_evs := if remaining_time > 0 then [CoEv.sleep remaining_time] else []
      if booking_delay < 0 then Except.error "sleep length must be non-negative"
      else Except.ok ([CoEv.sleep reauth_time, CoEv.login] ++ tail_evs ++
        [CoEv.sleep booking_delay, CoEv.dispatch])
  else
    if booking_delay < 0 then Except.error "sleep length must be non-negative"
    else Except.ok [CoEv.sleep booking_delay, CoEv.dispatch]

/-! ## pysportbot/__init__.py: SportBot -/

/-- A row of the activities table. -/
structure Activity where
  name_activity : String
  id_activity : String
deriving DecidableEq

/-- A row of the daily_slots table as consumed by SportBot.book / cancel. -/
structure SlotRow where
  start_timestamp : String
  id_activity_calendar : String
deriving DecidableEq

/-- The SportBot fields the embedded methods read or write: the login flag and
the cached activities table (the session, logger and collaborator objects of
the constructor carry no branching state of their own). -/
structure SportBotState where
  is_logged_in : Bool
  df_activities : Option (List Activity)
deriving DecidableEq

/-- Source: __init__.py SportBot.__init__: the bot starts logged out with no
activities loaded. -/
def SportBot.init : SportBotState :=
  { is_logged_in := false, df_activities := none }

/-- The external calls made by SportBot.login: centre validation, the
authenticator handshake, and the activities fetch.  Centres.check_centre is
absent from src (modelled from the spec, section 6: login fails when the
selected centre is invalid, raising ValueError(centre_not_found) per
src/tests/test_login.py), embedded as the `centre_valid` flag. -/
structure LoginEnv where
  centre_valid : Bool
  auth : PyResult Unit
  fetch : PyResult (List Activity)
deriving DecidableEq

/-- Source: __init__.py lines 38-59, SportBot.login.  check_centre runs before
the try block, so its exception propagates with the state untouched; inside
the try, any failure of the authenticator or of the activities fetch sets the
login flag to false and re-raises; completing every step sets it to true.
Returns the new state and the raised message, if any. -/
def SportBot.login (st : SportBotState) (centre : String) (env : LoginEnv) :
    SportBotState × Option String :=
  if env.centre_valid = false then
    (st, some (ErrorMessages.centre_not_found centre))
  else
    match env.auth with
    | PyResult.exn msg => ({ st with is_logged_in := false }, some msg)
    | PyResult.ok _ =>
      match env.fetch with
      | PyResult.exn msg => ({ st with is_logged_in := false }, some msg)
      | PyResult.ok df =>
        ({ is_logged_in := true, df_activities := some df }, none)

/-- Source: __init__.py lines 64-74, SportBot.activities: PermissionError when
not logged in, ValueError when no activities are loaded, otherwise the cached
table; the state is never written. -/
def SportBot.activities (st : SportBotState) :
    SportBotState × Except PyExn (List Activity) :=
  if st.is_logged_in = false then
    (st, Except.error (PyExn.permissionError ErrorMessages.not_logged_in))
  else
    match st.df_activities with
    | none => (st, Except.error (PyExn.valueError ErrorMessages.no_activities_loaded))
    | some df => (st, Except.ok df)

/-- Source: __init__.py lines 76-83, SportBot.daily_slots, with the
Activities.daily_slots collaborator as the table-valued parameter
`slots_table` (activity, day). -/
def SportBot.daily_slots (st : SportBotState) (slots_table : String → String → List SlotRow)
    (activity day : String) : SportBotState × Except PyExn (List SlotRow) :=
  if st.is_logged_in = false then
    (st, Except.error (PyExn.permissionError ErrorMessages.not_logged_in))
  else
    match st.df_activities with
    | none => (st, Except.error (PyExn.valueError ErrorMessages.no_activities_loaded))
    | some _ => (st, Except.ok (slots_table activity day))

/-- Characters of a list up to (excluding) the first space (helper for
`date_part`). -/
def take_until_space : List Char → List Char
  | [] => []
  | c :: cs => if c = ' ' then [] else c :: take_until_space cs

/-- Python's `start_time.split(" ")[0]`: the date prefix of a
"YYYY-MM-DD HH:MM:SS" timestamp. -/
def date_part (start_time : String) : String :=
  String.mk (take_until_space start_time.data)

/-- Events observed while SportBot.book (or cancel) runs. -/
inductive BookEv where
  | slots_fetch (activity day : String)
  | booking_request (slot_id : String)
deriving DecidableEq

/-- Source: __init__.py lines 85-106, SportBot.book: after the login and
activities guards, re-fetch the day's slots for the date prefix of
start_time, raise IndexError(slot_not_found) when no row's start_timestamp
equals start_time, otherwise send the booking request for the first matching
row's id_activity_calendar (whose outcome, `book_endpoint`, passes through:
the except ValueError clause only logs and re-raises).  Returns the unchanged
state, the events performed, and the outcome. -/
def SportBot.book (st : SportBotState) (slots_table : String → String → List SlotRow)
    (book_endpoint : String → Except PyExn Unit) (activity start_time : String) :
    SportBotState × List BookEv × Except PyExn Unit :=
  if st.is_logged_in = false then
    (st, [], Except.error (PyExn.permissionError ErrorMessages.not_logged_in))
  else
    match st.df_activities with
    | none => (st, [], Except.error (PyExn.valueError ErrorMessages.no_activities_loaded))
    | some _ =>
      let day := date_part start_time
      let slots := slots_table activity day
      let matching_slot := slots.filter (fun s => s.start_timestamp == start_time)
      match matching_slot with
      | [] => (st, [BookEv.slots_fetch activity day],
               Except.error (PyExn.indexError (ErrorMessages.slot_not_found activity start_time)))
      | s :: _ =>
        (st, [BookEv.slots_fetch activity day, BookEv.booking_request s.id_activity_calendar],
         book_endpoint s.id_activity_calendar)

/-- Source: __init__.py lines 108-126, SportBot.cancel: identical structure to
book, sending the cancellation request instead. -/
def SportBot.cancel (st : SportBotState) (slots_table : String → String → List SlotRow)
    (cancel_endpoint : String → Except PyExn Unit) (activity start_time : String) :
    SportBotState × List BookEv × Except PyExn Unit :=
  if st.is_logged_in = false then
    (st, [], Except.error (PyExn.permissionError ErrorMessages.not_logged_in))
  else
    match st.df_activities with
    | none => (st, [], Except.error (PyExn.valueError ErrorMessages.no_activities_loaded))
    | some _ =>
      let day := date_part start_time
      let slots := slots_table activity day
      let matching_slot := slots.filter (fun s => s.start_timestamp == start_time)
      match matching_slot with
      | [] => (st, [BookEv.slots_fetch activity day],
               Except.error (PyExn.indexError (ErrorMessages.slot_not_found activity start_time)))
      | s :: _ =>
        (st, [BookEv.slots_fetch activity day, BookEv.booking_request s.id_activity_calendar],
         cancel_endpoint s.id_activity_calendar)

/-! ## Concrete environments used by the witness theorems -/

/-- A one-row slots table whose single slot starts at 2024-01-10 18:00:00. -/
def demo_slot : Slot := { start_timestamp := "2024-01-10 18:00:00" }

/-- An environment whose book call always raises the already-booked error. -/
def env_already_booked : BotEnv :=
  { daily_slots := fun _ _ _ => PyResult.ok [demo_slot]
    book := fun _ _ _ => PyResult.exn ErrorMessages.slot_already_booked }

/-- An environment whose book call always raises a generic network error. -/
def env_generic_failure : BotEnv :=
  { daily_slots := fun _ _ _ => PyResult.ok [demo_slot]
    book := fun _ _ _ => PyResult.exn "Connection reset by peer" }

/-- An environment whose slot table holds only a 17:59:59 slot, so that no
slot matches an 18:00:00 target. -/
def env_no_slots : BotEnv :=
  { daily_slots := fun _ _ _ => PyResult.ok [{ start_timestamp := "2024-01-10 17:59:59" }]
    book := fun _ _ _ => PyResult.ok () }

/-- A slots table for the SportBot.book witnesses: one bookable row on
2024-01-10 and nothing anywhere else. -/
def demo_table : String → String → List SlotRow := fun _ day =>
  if day = "2024-01-10" then
    [{ start_timestamp := "2024-01-10 18:00:00", id_activity_calendar := "calendar-42" }]
  else []

/-! ## Helper lemmas -/

/-- Every weekday index stored in DAY_MAP is below 7. -/
theorem DAY_MAP_lookup_lt (s : String) (t : Nat) (h : dict_get s DAY_MAP = some t) : t < 7 := by
  simp only [DAY_MAP, dict_get] at h
  repeat' split at h
  all_goals cases h
  all_goals decide

/-! ## Claim theorems -/

/-- Claim C7: the worker-count policy of get_n_threads.  Requested 0 is a
configuration error (checked first); otherwise zero bookings give 0 workers;
requested -1 gives min(cpu, bookings); any other request gives
min(requested, cpu, bookings); with 8 cores get_n_threads (-1) 3 = 3 and with
4 cores get_n_threads 10 3 = 3. -/
theorem C7_thread_count_policy :
    (∀ (n c : Nat), get_n_threads 0 n c = Except.error "Invalid number of threads requested.")
    ∧ (∀ (r : Int) (c : Nat), r ≠ 0 → get_n_threads r 0 c = Except.ok 0)
    ∧ (∀ (n c : Nat), n ≠ 0 → get_n_threads (-1) n c = Except.ok (min (c : Int) (n : Int)))
    ∧ (∀ (r : Int) (n c : Nat), r ≠ 0 → r ≠ -1 → n ≠ 0 →
        get_n_threads r n c = Except.ok (min r (min (c : Int) (n : Int))))
    ∧ get_n_threads (-1) 3 8 = Except.ok 3
    ∧ get_n_threads 10 3 4 = Except.ok 3 := by
  refine ⟨?_, ?_, ?_, ?_, rfl, rfl⟩
  · intro n c; simp [get_n_threads]
  · intro r c hr; simp [get_n_threads, hr]
  · intro n c hn; simp [get_n_threads, hn]
  · intro r n c hr hm hn; simp [get_n_threads, hr, hm, hn]

/-- Claim C7 witness: the policy evaluated at the spec's concrete examples. -/
theorem C7_thread_count_policy_witness :
    get_n_threads 0 5 4 = Except.error "Invalid number of threads requested."
    ∧ get_n_threads (-1) 0 4 = Except.ok 0
    ∧ get_n_threads (-1) 3 8 = Except.ok (min (8 : Int) (3 : Int))
    ∧ get_n_threads 10 3 4 = Except.ok (min (10 : Int) (min (4 : Int) (3 : Int))) :=
  ⟨C7_thread_count_policy.1 5 4,
   C7_thread_count_policy.2.1 (-1) 4 (by decide),
   C7_thread_count_policy.2.2.1 3 8 (by decide),
   C7_thread_count_policy.2.2.2.1 10 3 4 (by decide) (by decide) (by decide)⟩

/-- Claim C8: Bookings.book returns normally exactly when the platform
response has success true; otherwise error code 5 raises
ValueError(slot_already_booked), 6 raises ValueError(slot_unavailable), 28
raises ValueError(slot_not_bookable_yet), and every other code raises
RuntimeError(unknown_error "booking"). -/
theorem C8_booking_error_classification :
    (∀ r : BookingResponse, Bookings.book r = Except.ok () ↔ r.success = true)
    ∧ (∀ r : BookingResponse, r.success = false → r.error = 5 →
        Bookings.book r = Except.error (PyExn.valueError ErrorMessages.slot_already_booked))
    ∧ (∀ r : BookingResponse, r.success = false → r.error = 6 →
        Bookings.book r = Except.error (PyExn.valueError ErrorMessages.slot_unavailable))
    ∧ (∀ r : BookingResponse, r.success = false → r.error = 28 →
        Bookings.book r = Except.error (PyExn.valueError ErrorMessages.slot_not_bookable_yet))
    ∧ (∀ r : BookingResponse, r.success = false → r.error ≠ 5 → r.error ≠ 6 → r.error ≠ 28 →
        Bookings.book r =
          Except.error (PyExn.runtimeError (ErrorMessages.unknown_error "booking"))) := by
  refine ⟨?_, ?_, ?_, ?_, ?_⟩
  · rintro ⟨success, error⟩
    cases success <;> simp [Bookings.book] <;> split_ifs <;> simp
  · rintro ⟨success, error⟩ hs he
    subst hs; simp [Bookings.book] at he ⊢; simp [he]
  · rintro ⟨success, error⟩ hs he
    subst hs; simp [Bookings.book] at he ⊢; simp [he]
  · rintro ⟨success, error⟩ hs he
    subst hs; simp [Bookings.book] at he ⊢; simp [he]
  · rintro ⟨success, error⟩ hs h5 h6 h28
    subst hs; simp [Bookings.book] at h5 h6 h28 ⊢; simp [h5, h6, h28]

/-- Claim C8 witness: the classification evaluated at one response per
outcome. -/
theorem C8_booking_error_classification_witness :
    Bookings.book { success := true, error := 0 } = Except.ok ()
    ∧ Bookings.book { success := false, error := 5 } =
        Except.error (PyExn.valueError ErrorMessages.slot_already_booked)
    ∧ Bookings.book { success := false, error := 6 } =
        Except.error (PyExn.valueError ErrorMessages.slot_unavailable)
    ∧ Bookings.book { success := false, error := 28 } =
        Except.error (PyExn.valueError ErrorMessages.slot_not_bookable_yet)
    ∧ Bookings.book { success := false, error := 99 } =
        Except.error (PyExn.runtimeError (ErrorMessages.unknown_error "booking")) :=
  ⟨(C8_booking_error_classification.1 { success := true, error := 0 }).mpr rfl,
   C8_booking_error_classification.2.1 { success := false, error := 5 } rfl rfl,
   C8_booking_error_classification.2.2.1 { success := false, error := 6 } rfl rfl,
   C8_booking_error_classification.2.2.2.1 { success := false, error := 28 } rfl rfl,
   C8_booking_error_classification.2.2.2.2 { success := false, error := 99 } rfl
     (by decide) (by decide) (by decide)⟩

/-- Claim C3: evaluating calculate_class_day of pysportbot/service.py at the
failing input of the repo's own test test_calculate_class_day_always_next_week
(today is Friday 2024-01-05, day index 4; requested weekday "Friday"): the
source returns today's date (adds 0 days), while the claim, the spec and the
test require next Friday 2024-01-12 (day index 11), the value returned by the
spec-modelled scheduling module. -/
theorem C3_class_day_today_not_advanced :
    calculate_class_day "Friday" 4 = some 4
    ∧ scheduling.calculate_class_day "Friday" 4 = some 11 := by
  constructor <;> decide

/-- Claim C2 counterexample: with "now" 0 and execution_time 30 seconds in the
future, the wait phase of schedule_bookings attempts time.sleep(-30), which
raises ValueError instead of skipping to re-authentication. -/
theorem C2_counterexample_short_window :
    schedule_wait_phase 0 30 0 0 = Except.error "sleep length must be non-negative" := rfl

/-- Claim C2 (amended): whenever execution_time is at least 60 seconds in the
future, the coordinator sleeps execution_time - now - 60 seconds, re-
authenticates, sleeps any remaining time, applies the booking delay and
dispatches; whenever execution_time is 1 to 59 seconds in the future the
unconditional time.sleep(time_until_execution - 60) receives a negative
duration and raises ValueError (no skip to re-authentication exists);
whenever execution_time is not in the future the coordinator skips directly
to the booking delay. -/
theorem C2_wait_phase_amended (now execution_time login_elapsed booking_delay : Int)
    (hle : 0 ≤ login_elapsed) (hbd : 0 ≤ booking_delay) :
    (execution_time - now ≥ 60 →
      schedule_wait_phase now execution_time login_elapsed booking_delay =
        Except.ok ([CoEv.sleep (execution_time - now - 60), CoEv.login] ++
          (if 60 - login_elapsed > 0 then [CoEv.sleep (60 - login_elapsed)] else []) ++
          [CoEv.sleep booking_delay, CoEv.dispatch]))
    ∧ (0 < execution_time - now → execution_time - now < 60 →
      schedule_wait_phase now execution_time login_elapsed booking_delay =
        Except.error "sleep length must be non-negative")
    ∧ (execution_time - now ≤ 0 →
      schedule_wait_phase now execution_time login_elapsed booking_delay =
        Except.ok [CoEv.sleep booking_delay, CoEv.dispatch]) := by
  have harith : execution_time - (now + (execution_time - now - 60) + login_elapsed) =
      60 - login_elapsed := by ring
  refine ⟨?_, ?_, ?_⟩
  · intro h
    simp only [schedule_wait_phase, harith]
    rw [if_pos (by omega), if_neg (by omega), if_neg (by omega)]
  · intro h1 h2
    simp only [schedule_wait_phase]
    rw [if_pos (by omega), if_pos (by omega)]
  · intro h
    simp only [schedule_wait_phase]
    rw [if_neg (by omega), if_neg (by omega)]

/-- Claim C2 witness: the amended behavior at concrete instants — execution
120 seconds ahead with a 5-second re-auth and 2-second booking delay;
execution 30 seconds ahead raising from the negative sleep; and an
already-past execution skipping directly to the booking delay. -/
theorem C2_wait_phase_amended_witness :
    schedule_wait_phase 0 120 5 2 =
      Except.ok [CoEv.sleep 60, CoEv.login, CoEv.sleep 55, CoEv.sleep 2, CoEv.dispatch]
    ∧ schedule_wait_phase 0 30 0 0 = Except.error "sleep length must be non-negative"
    ∧ schedule_wait_phase 100 40 3 7 = Except.ok [CoEv.sleep 7, CoEv.dispatch] := by
  refine ⟨?_, ?_, ?_⟩
  · have h := (C2_wait_phase_amended 0 120 5 2 (by decide) (by decide)).1 (by decide)
    simpa using h
  · exact (C2_wait_phase_amended 0 30 0 0 (by decide) (by decide)).2.1 (by decide) (by decide)
  · exact (C2_wait_phase_amended 100 40 3 7 (by decide) (by decide)).2.2 (by decide)

/-- Claim C4: calculate_next_execution returns the current instant for "now";
for a (weekday, time) spec whose weekday name is in DAY_MAP: if today is that
weekday and the current time-of-day is strictly before the target time it
returns today at the target time; otherwise it returns the target time on a
day 1 to 7 days ahead falling on the requested weekday; in particular when
today is the weekday and the target time has passed it returns exactly 7
days later at the same time. -/
theorem C4_next_execution (wname : String) (target exec_time : Nat) (now : LocalDateTime)
    (hlook : dict_get (py_strip (py_lower wname)) DAY_MAP = some target) :
    (∀ n : LocalDateTime, calculate_next_execution BookingExecution.now n = some n)
    ∧ (target = weekday now.day → now.tod < exec_time →
        calculate_next_execution (BookingExecution.dayTime wname exec_time) now =
          some { day := now.day, tod := exec_time })
    ∧ (¬ (target = weekday now.day ∧ now.tod < exec_time) →
        ∃ k, 1 ≤ k ∧ k ≤ 7 ∧ weekday (now.day + k) = target ∧
          calculate_next_execution (BookingExecution.dayTime wname exec_time) now =
            some { day := now.day + k, tod := exec_time })
    ∧ (target = weekday now.day → exec_time ≤ now.tod →
        calculate_next_execution (BookingExecution.dayTime wname exec_time) now =
          some { day := now.day + 7, tod := exec_time }) := by
  have htlt : target < 7 := DAY_MAP_lookup_lt _ _ hlook
  have hw : weekday now.day = now.day % 7 := rfl
  refine ⟨fun n => rfl, ?_, ?_, ?_⟩
  · intro h1 h2
    simp only [calculate_next_execution, hlook]
    rw [if_pos ⟨h1, h2⟩]
  · intro hnot
    by_cases hd : (target : Int) - (weekday now.day : Int) ≤ 0
    · refine ⟨((target : Int) - (weekday now.day : Int) + 7).toNat, by omega, by omega,
        by simp only [weekday] at *; omega, ?_⟩
      simp only [calculate_next_execution, hlook]
      rw [if_neg hnot, if_pos hd]
    · refine ⟨((target : Int) - (weekday now.day : Int)).toNat, by omega, by omega,
        by simp only [weekday] at *; omega, ?_⟩
      simp only [calculate_next_execution, hlook]
      rw [if_neg hnot, if_neg hd]
  · intro h1 h2
    simp only [calculate_next_execution, hlook]
    rw [if_neg (by rintro ⟨-, hlt⟩; omega), if_pos (by omega)]
    simp only [Option.some_inj, LocalDateTime.mk.injEq]
    refine ⟨by omega, by simp⟩

/-- Claim C4 witness: on Monday day 0 at 07:00 (25200 s), the spec
"Monday 10:00:00" (36000 s) executes the same day, while on Monday day 0 at
12:00 (43200 s) it executes exactly 7 days later, and "now" returns the
current instant. -/
theorem C4_next_execution_witness :
    calculate_next_execution BookingExecution.now { day := 0, tod := 25200 } =
      some { day := 0, tod := 25200 }
    ∧ calculate_next_execution (BookingExecution.dayTime "Monday" 36000) { day := 0, tod := 25200 } =
        some { day := 0, tod := 36000 }
    ∧ calculate_next_execution (BookingExecution.dayTime "Monday" 36000) { day := 0, tod := 43200 } =
        some { day := 7, tod := 36000 } :=
  ⟨(C4_next_execution "Monday" 0 36000 { day := 0, tod := 25200 } (by decide)).1 _,
   (C4_next_execution "Monday" 0 36000 { day := 0, tod := 25200 } (by decide)).2.1
     (by decide) (by decide),
   (C4_next_execution "Monday" 0 36000 { day := 0, tod := 43200 } (by decide)).2.2.2
     (by decide) (by decide)⟩

/-- Claim C1: when the first attempt of attempt_booking reaches book and book
raises an error whose text contains the already-booked message, the function
returns at once: the trace holds exactly one book call and no retry sleep,
for any remaining retry budget, and nothing escapes. -/
theorem C1_already_booked_stops (env : BotEnv) (activity booking_date class_time : String)
    (retry_attempts retry_delay : Nat) (slots : List Slot) (s : Slot) (rest : List Slot)
    (msg : String)
    (hra : 1 ≤ retry_attempts)
    (hslots : env.daily_slots 1 activity booking_date = PyResult.ok slots)
    (hmatch : matching_slots slots booking_date class_time = s :: rest)
    (hbook : env.book 1 activity s.start_timestamp = PyResult.exn msg)
    (hmsg : py_in ErrorMessages.slot_already_booked msg = true) :
    attempt_booking env activity booking_date class_time retry_attempts retry_delay =
      { events := [Ev.slots_call activity booking_date,
                   Ev.book_call activity s.start_timestamp],
        escaped := none }
    ∧ count_book_calls
        (attempt_booking env activity booking_date class_time retry_attempts retry_delay).events = 1
    ∧ count_retry_sleeps
        (attempt_booking env activity booking_date class_time retry_attempts retry_delay).events = 0 := by
  obtain ⟨n, rfl⟩ : ∃ n, retry_attempts = n + 1 := ⟨retry_attempts - 1, by omega⟩
  have hidx : n + 1 - n = 1 := by omega
  have hmain : attempt_booking env activity booking_date class_time (n + 1) retry_delay =
      { events := [Ev.slots_call activity booking_date,
                   Ev.book_call activity s.start_timestamp],
        escaped := none } := by
    simp [attempt_booking, attempt_booking_go, hidx, attempt_try, hslots, hmatch, hbook, hmsg]
  exact ⟨hmain, by rw [hmain]; try rfl, by rw [hmain]; try rfl⟩

/-- Claim C1 witness: with an environment whose book call always raises the
already-booked error and a budget of 3 attempts, the trace holds exactly one
book call and no retry sleep. -/
theorem C1_already_booked_stops_witness :
    attempt_booking env_already_booked "Yoga" "2024-01-10" "18:00:00" 3 1 =
      { events := [Ev.slots_call "Yoga" "2024-01-10",
                   Ev.book_call "Yoga" "2024-01-10 18:00:00"],
        escaped := none }
    ∧ count_book_calls
        (attempt_booking env_already_booked "Yoga" "2024-01-10" "18:00:00" 3 1).events = 1
    ∧ count_retry_sleeps
        (attempt_booking env_already_booked "Yoga" "2024-01-10" "18:00:00" 3 1).events = 0 :=
  C1_already_booked_stops env_already_booked "Yoga" "2024-01-10" "18:00:00" 3 1
    [demo_slot] demo_slot [] ErrorMessages.slot_already_booked
    (by omega) rfl (by decide) rfl (by decide)

/-- The try-block of an attempt never emits a retry sleep: its events are
only the slots fetch and, when a slot matched, the book call. -/
theorem attempt_try_no_retry_sleep (env : BotEnv) (n : Nat) (a b c : String) :
    count_retry_sleeps (attempt_try env n a b c).1 = 0 := by
  rcases hds : env.daily_slots n a b with slots | m
  · rcases hm : matching_slots slots b c with _ | ⟨s, rest⟩
    · simp [attempt_try, hds, hm, count_retry_sleeps]
    · rcases hb : env.book n a s.start_timestamp with v | msg
      · simp [attempt_try, hds, hm, hb, count_retry_sleeps]
      · simp [attempt_try, hds, hm, hb, count_retry_sleeps]
  · simp [attempt_try, hds, count_retry_sleeps]

/-- When the slot lookup finds a match, the attempt's trace is the slots
fetch followed by one book call, whatever book returns. -/
theorem attempt_try_book_trace (env : BotEnv) (n : Nat) (a b c : String)
    (slots : List Slot) (s : Slot) (rest : List Slot)
    (hs : env.daily_slots n a b = PyResult.ok slots)
    (hm : matching_slots slots b c = s :: rest) :
    (attempt_try env n a b c).1 = [Ev.slots_call a b, Ev.book_call a s.start_timestamp] := by
  simp only [attempt_try, hs, hm]
  cases env.book n a s.start_timestamp <;> rfl

/-- When the slot lookup finds no match, the attempt's trace is the slots
fetch alone: book is never reached. -/
theorem attempt_try_nomatch_trace (env : BotEnv) (n : Nat) (a b c : String)
    (slots : List Slot)
    (hs : env.daily_slots n a b = PyResult.ok slots)
    (hm : matching_slots slots b c = []) :
    (attempt_try env n a b c).1 = [Ev.slots_call a b] := by
  simp [attempt_try, hs, hm]

/-- Claim C6 counterexample: with retry_attempts 2 and a slot table in which
no slot matches the target time, the slot lookup raises the (non-already-
booked) no-matching-slot error on both attempts — the situation the claim
names — yet book is called zero times, not twice: the trace is slots fetch,
retry sleep, slots fetch. -/
theorem C6_counterexample_lookup_failure :
    (attempt_try env_no_slots 1 "Yoga" "2024-01-10" "18:00:00").2 =
      some (ErrorMessages.no_matching_slots_for_time "Yoga" "18:00:00" "2024-01-10")
    ∧ (attempt_try env_no_slots 2 "Yoga" "2024-01-10" "18:00:00").2 =
      some (ErrorMessages.no_matching_slots_for_time "Yoga" "18:00:00" "2024-01-10")
    ∧ py_in ErrorMessages.slot_already_booked
        (ErrorMessages.no_matching_slots_for_time "Yoga" "18:00:00" "2024-01-10") = false
    ∧ attempt_booking env_no_slots "Yoga" "2024-01-10" "18:00:00" 2 1 =
      { events := [Ev.slots_call "Yoga" "2024-01-10", Ev.retry_sleep 1,
                   Ev.slots_call "Yoga" "2024-01-10"],
        escaped := none }
    ∧ count_book_calls
        (attempt_booking env_no_slots "Yoga" "2024-01-10" "18:00:00" 2 1).events = 0 :=
  ⟨rfl, rfl, by decide, by decide, by decide⟩

/-- Claim C6 (amended): with retry_attempts 2, when every attempt raises a
non-already-booked error — from the slot lookup or from book — the attempt
body runs exactly twice, exactly one retry sleep of retry_delay occurs,
strictly between the two attempts and none after the last, attempt_booking
returns normally (nothing escapes), and the number of book calls is the
number of attempts that reached book: exactly two when book raises on both
attempts, and zero when the slot lookup fails on both attempts. -/
theorem C6_two_failed_attempts_amended (env : BotEnv)
    (activity booking_date class_time : String) (retry_delay : Nat) (m1 m2 : String)
    (h1 : (attempt_try env 1 activity booking_date class_time).2 = some m1)
    (hc1 : py_in ErrorMessages.slot_already_booked m1 = false)
    (h2 : (attempt_try env 2 activity booking_date class_time).2 = some m2)
    (hc2 : py_in ErrorMessages.slot_already_booked m2 = false) :
    attempt_booking env activity booking_date class_time 2 retry_delay =
      { events := (attempt_try env 1 activity booking_date class_time).1
            ++ Ev.retry_sleep retry_delay ::
              (attempt_try env 2 activity booking_date class_time).1,
        escaped := none }
    ∧ count_retry_sleeps
        (attempt_booking env activity booking_date class_time 2 retry_delay).events = 1
    ∧ (attempt_booking env activity booking_date class_time 2 retry_delay).escaped = none
    ∧ (∀ (slots1 slots2 : List Slot) (s1 s2 : Slot) (r1 r2 : List Slot),
        env.daily_slots 1 activity booking_date = PyResult.ok slots1 →
        matching_slots slots1 booking_date class_time = s1 :: r1 →
        env.daily_slots 2 activity booking_date = PyResult.ok slots2 →
        matching_slots slots2 booking_date class_time = s2 :: r2 →
        count_book_calls
          (attempt_booking env activity booking_date class_time 2 retry_delay).events = 2)
    ∧ (∀ (slots1 slots2 : List Slot),
        env.daily_slots 1 activity booking_date = PyResult.ok slots1 →
        matching_slots slots1 booking_date class_time = [] →
        env.daily_slots 2 activity booking_date = PyResult.ok slots2 →
        matching_slots slots2 booking_date class_time = [] →
        count_book_calls
          (attempt_booking env activity booking_date class_time 2 retry_delay).events = 0) := by
  have hmain : attempt_booking env activity booking_date class_time 2 retry_delay =
      { events := (attempt_try env 1 activity booking_date class_time).1
            ++ Ev.retry_sleep retry_delay ::
              (attempt_try env 2 activity booking_date class_time).1,
        escaped := none } := by
    simp [attempt_booking, attempt_booking_go, h1, h2, hc1, hc2]
  have l1 := attempt_try_no_retry_sleep env 1 activity booking_date class_time
  have l2 := attempt_try_no_retry_sleep env 2 activity booking_date class_time
  simp only [count_retry_sleeps] at l1 l2
  refine ⟨hmain, ?_, ?_, ?_, ?_⟩
  · rw [hmain]
    simp [count_retry_sleeps, List.filter_append, l1, l2]
  · rw [hmain]
  · intro slots1 slots2 s1 s2 r1 r2 hs1 hm1 hs2 hm2
    rw [hmain]
    simp [count_book_calls, List.filter_append,
      attempt_try_book_trace env 1 activity booking_date class_time slots1 s1 r1 hs1 hm1,
      attempt_try_book_trace env 2 activity booking_date class_time slots2 s2 r2 hs2 hm2]
  · intro slots1 slots2 hs1 hm1 hs2 hm2
    rw [hmain]
    simp [count_book_calls, List.filter_append,
      attempt_try_nomatch_trace env 1 activity booking_date class_time slots1 hs1 hm1,
      attempt_try_nomatch_trace env 2 activity booking_date class_time slots2 hs2 hm2]

/-- Claim C6 witness: the amended statement evaluated on the book-failure
environment (two book calls, one sleep between) and on the lookup-failure
environment (zero book calls, one sleep, normal return). -/
theorem C6_two_failed_attempts_amended_witness :
    attempt_booking env_generic_failure "Yoga" "2024-01-10" "18:00:00" 2 1 =
      { events := [Ev.slots_call "Yoga" "2024-01-10",
                   Ev.book_call "Yoga" "2024-01-10 18:00:00",
                   Ev.retry_sleep 1,
                   Ev.slots_call "Yoga" "2024-01-10",
                   Ev.book_call "Yoga" "2024-01-10 18:00:00"],
        escaped := none }
    ∧ count_book_calls
        (attempt_booking env_generic_failure "Yoga" "2024-01-10" "18:00:00" 2 1).events = 2
    ∧ count_book_calls
        (attempt_booking env_no_slots "Yoga" "2024-01-10" "18:00:00" 2 1).events = 0
    ∧ count_retry_sleeps
        (attempt_booking env_no_slots "Yoga" "2024-01-10" "18:00:00" 2 1).events = 1
    ∧ (attempt_booking env_no_slots "Yoga" "2024-01-10" "18:00:00" 2 1).escaped = none := by
  have hg := C6_two_failed_attempts_amended env_generic_failure "Yoga" "2024-01-10" "18:00:00" 1
    "Connection reset by peer" "Connection reset by peer" rfl (by decide) rfl (by decide)
  have hn := C6_two_failed_attempts_amended env_no_slots "Yoga" "2024-01-10" "18:00:00" 1
    (ErrorMessages.no_matching_slots_for_time "Yoga" "18:00:00" "2024-01-10")
    (ErrorMessages.no_matching_slots_for_time "Yoga" "18:00:00" "2024-01-10")
    rfl (by decide) rfl (by decide)
  refine ⟨by rw [hg.1]; rfl,
    hg.2.2.2.1 [demo_slot] [demo_slot] demo_slot demo_slot [] [] rfl (by decide) rfl (by decide),
    hn.2.2.2.2 [{ start_timestamp := "2024-01-10 17:59:59" }]
      [{ start_timestamp := "2024-01-10 17:59:59" }] rfl (by decide) rfl (by decide),
    hn.2.1, hn.2.2.1⟩

/-- Claim C5: slot matching is exact string equality with no tolerance
window; a slot is selected exactly when its start_timestamp equals
"{booking_date} {class_time}"; zero matches make the attempt raise the
no-matching-slot error carrying (activity, time, date) and no book call
happens; with several matches the first is booked; and the slot
"2024-01-10 17:59:59" never matches target time "18:00:00". -/
theorem C5_exact_slot_matching :
    (∀ (slots : List Slot) (booking_date class_time : String) (s : Slot),
        s ∈ matching_slots slots booking_date class_time ↔
          s ∈ slots ∧ s.start_timestamp = booking_date ++ " " ++ class_time)
    ∧ (∀ (env : BotEnv) (n : Nat) (activity booking_date class_time : String)
        (slots : List Slot),
        env.daily_slots n activity booking_date = PyResult.ok slots →
        matching_slots slots booking_date class_time = [] →
        attempt_try env n activity booking_date class_time =
          ([Ev.slots_call activity booking_date],
           some (ErrorMessages.no_matching_slots_for_time activity class_time booking_date)))
    ∧ (∀ (env : BotEnv) (n : Nat) (activity booking_date class_time : String)
        (slots : List Slot) (s : Slot) (rest : List Slot),
        env.daily_slots n activity booking_date = PyResult.ok slots →
        matching_slots slots booking_date class_time = s :: rest →
        Ev.book_call activity s.start_timestamp ∈
          (attempt_try env n activity booking_date class_time).1)
    ∧ matching_slots [{ start_timestamp := "2024-01-10 17:59:59" }] "2024-01-10" "18:00:00"
        = [] := by
  refine ⟨?_, ?_, ?_, by decide⟩
  · intro slots booking_date class_time s
    simp [matching_slots, List.mem_filter]
  · intro env n activity booking_date class_time slots h1 h2
    simp [attempt_try, h1, h2]
  · intro env n activity booking_date class_time slots s rest h1 h2
    simp only [attempt_try, h1, h2]
    cases env.book n activity s.start_timestamp <;> simp

/-- Claim C5 witness: the matcher evaluated on concrete slot tables — the
17:59:59 slot never matches 18:00:00, an exact slot does match, and the
no-match attempt raises the diagnostic error without a book call. -/
theorem C5_exact_slot_matching_witness :
    (demo_slot ∈ matching_slots [demo_slot] "2024-01-10" "18:00:00" ↔
      demo_slot ∈ [demo_slot] ∧ demo_slot.start_timestamp = "2024-01-10" ++ " " ++ "18:00:00")
    ∧ attempt_try env_no_slots 1 "Yoga" "2024-01-10" "18:00:00" =
        ([Ev.slots_call "Yoga" "2024-01-10"],
         some (ErrorMessages.no_matching_slots_for_time "Yoga" "18:00:00" "2024-01-10"))
    ∧ Ev.book_call "Yoga" demo_slot.start_timestamp ∈
        (attempt_try env_already_booked 1 "Yoga" "2024-01-10" "18:00:00").1
    ∧ matching_slots [{ start_timestamp := "2024-01-10 17:59:59" }] "2024-01-10" "18:00:00"
        = [] :=
  ⟨C5_exact_slot_matching.1 [demo_slot] "2024-01-10" "18:00:00" demo_slot,
   C5_exact_slot_matching.2.1 env_no_slots 1 "Yoga" "2024-01-10" "18:00:00"
     [{ start_timestamp := "2024-01-10 17:59:59" }] rfl (by decide),
   C5_exact_slot_matching.2.2.1 env_already_booked 1 "Yoga" "2024-01-10" "18:00:00"
     [demo_slot] demo_slot [] rfl (by decide),
   C5_exact_slot_matching.2.2.2⟩

/-- Claim C9 counterexample: a bot that logged in successfully and then calls
login with an invalid centre sees that login raise — yet is_logged_in stays
true, because centre validation runs before the try block that resets the
flag; so a login that raises does not always leave is_logged_in false. -/
theorem C9_counterexample_centre_failure :
    ((SportBot.login
        (SportBot.login SportBot.init "kirolklub"
          { centre_valid := true, auth := PyResult.ok (), fetch := PyResult.ok [] }).1
        "nonexistent-centre"
        { centre_valid := false, auth := PyResult.ok (), fetch := PyResult.ok [] }).2).isSome
      = true
    ∧ ((SportBot.login
        (SportBot.login SportBot.init "kirolklub"
          { centre_valid := true, auth := PyResult.ok (), fetch := PyResult.ok [] }).1
        "nonexistent-centre"
        { centre_valid := false, auth := PyResult.ok (), fetch := PyResult.ok [] }).1).is_logged_in
      = true := ⟨rfl, rfl⟩

/-- Claim C9 (amended): the guarded operations (activities, daily_slots, book,
cancel) raise PermissionError and leave the state unchanged when not logged
in; is_logged_in is false after construction; login completes without raising
exactly when centre validation, authentication and the activities fetch all
succeed, and only then does a logged-out bot become logged in; a login that
raises inside the try block (authentication or activities fetch) leaves
is_logged_in false, while a login that fails centre validation raises before
the try block and leaves the previous state — including a true login flag —
unchanged. -/
theorem C9_login_state_amended (st : SportBotState) (centre : String) (env : LoginEnv)
    (slots_table : String → String → List SlotRow)
    (endpoint : String → Except PyExn Unit) (activity start_time day : String) :
    SportBot.init.is_logged_in = false
    ∧ (st.is_logged_in = false →
        SportBot.activities st =
          (st, Except.error (PyExn.permissionError ErrorMessages.not_logged_in))
        ∧ SportBot.daily_slots st slots_table activity day =
            (st, Except.error (PyExn.permissionError ErrorMessages.not_logged_in))
        ∧ SportBot.book st slots_table endpoint activity start_time =
            (st, [], Except.error (PyExn.permissionError ErrorMessages.not_logged_in))
        ∧ SportBot.cancel st slots_table endpoint activity start_time =
            (st, [], Except.error (PyExn.permissionError ErrorMessages.not_logged_in)))
    ∧ ((SportBot.login st centre env).2 = none ↔
        env.centre_valid = true ∧ env.auth = PyResult.ok ()
          ∧ ∃ df, env.fetch = PyResult.ok df)
    ∧ (st.is_logged_in = false → (SportBot.login st centre env).1.is_logged_in = true →
        (SportBot.login st centre env).2 = none)
    ∧ (env.centre_valid = true →
        ((∃ m, env.auth = PyResult.exn m)
          ∨ (∃ m, env.fetch = PyResult.exn m)) →
        (SportBot.login st centre env).1.is_logged_in = false)
    ∧ (env.centre_valid = false →
        SportBot.login st centre env = (st, some (ErrorMessages.centre_not_found centre))) := by
  obtain ⟨cv, auth, fetch⟩ := env
  refine ⟨rfl, ?_, ?_, ?_, ?_, ?_⟩
  · intro h
    exact ⟨by simp [SportBot.activities, h], by simp [SportBot.daily_slots, h],
      by simp [SportBot.book, h], by simp [SportBot.cancel, h]⟩
  · cases cv <;> cases auth <;> cases fetch <;> simp [SportBot.login]
  · intro h
    cases cv <;> cases auth <;> cases fetch <;> simp_all [SportBot.login]
  · intro h hraise
    cases auth <;> cases fetch <;> simp_all [SportBot.login]
  · intro h
    cases cv <;> simp_all [SportBot.login]

/-- Claim C9 witness: the amended statement evaluated on a logged-out bot and
an environment whose authentication fails. -/
theorem C9_login_state_amended_witness :
    SportBot.init.is_logged_in = false
    ∧ SportBot.activities SportBot.init =
        (SportBot.init, Except.error (PyExn.permissionError ErrorMessages.not_logged_in))
    ∧ (SportBot.login SportBot.init "kirolklub"
        { centre_valid := true, auth := PyResult.exn "Login failed", fetch := PyResult.ok [] }
       ).1.is_logged_in = false
    ∧ SportBot.login SportBot.init "nonexistent-centre"
        { centre_valid := false, auth := PyResult.ok (), fetch := PyResult.ok [] } =
        (SportBot.init, some (ErrorMessages.centre_not_found "nonexistent-centre")) :=
  ⟨(C9_login_state_amended SportBot.init "kirolklub"
      { centre_valid := true, auth := PyResult.ok (), fetch := PyResult.ok [] }
      (fun _ _ => []) (fun _ => Except.ok ()) "Yoga" "2024-01-10 18:00:00" "2024-01-10").1,
   ((C9_login_state_amended SportBot.init "kirolklub"
      { centre_valid := true, auth := PyResult.ok (), fetch := PyResult.ok [] }
      (fun _ _ => []) (fun _ => Except.ok ()) "Yoga" "2024-01-10 18:00:00" "2024-01-10").2.1
      rfl).1,
   (C9_login_state_amended SportBot.init "kirolklub"
      { centre_valid := true, auth := PyResult.exn "Login failed", fetch := PyResult.ok [] }
      (fun _ _ => []) (fun _ => Except.ok ()) "Yoga" "2024-01-10 18:00:00" "2024-01-10").2.2.2.2.1
      rfl (Or.inl ⟨"Login failed", rfl⟩),
   (C9_login_state_amended SportBot.init "nonexistent-centre"
      { centre_valid := false, auth := PyResult.ok (), fetch := PyResult.ok [] }
      (fun _ _ => []) (fun _ => Except.ok ()) "Yoga" "2024-01-10 18:00:00" "2024-01-10").2.2.2.2.2
      rfl⟩

/-- Claim C10: for a logged-in bot with activities loaded, SportBot.book
re-fetches the day's slots for the date prefix of start_time; when no row's
start_timestamp equals start_time exactly it raises
IndexError(slot_not_found activity start_time) and no booking request is
sent; otherwise exactly one booking request is sent, for the first matching
row's id_activity_calendar, with the endpoint outcome passed through. -/
theorem C10_book_revalidates (st : SportBotState)
    (slots_table : String → String → List SlotRow)
    (book_endpoint : String → Except PyExn Unit) (activity start_time : String)
    (df : List Activity)
    (hlog : st.is_logged_in = true) (hdf : st.df_activities = some df) :
    ((slots_table activity (date_part start_time)).filter
        (fun s => s.start_timestamp == start_time) = [] →
      SportBot.book st slots_table book_endpoint activity start_time =
        (st, [BookEv.slots_fetch activity (date_part start_time)],
         Except.error (PyExn.indexError (ErrorMessages.slot_not_found activity start_time))))
    ∧ (∀ s rest, (slots_table activity (date_part start_time)).filter
        (fun sl => sl.start_timestamp == start_time) = s :: rest →
      SportBot.book st slots_table book_endpoint activity start_time =
        (st, [BookEv.slots_fetch activity (date_part start_time),
              BookEv.booking_request s.id_activity_calendar],
         book_endpoint s.id_activity_calendar))
    ∧ ((slots_table activity (date_part start_time)).filter
        (fun s => s.start_timestamp == start_time) = [] ↔
        ∀ s ∈ slots_table activity (date_part start_time),
          ¬ s.start_timestamp = start_time) := by
  refine ⟨?_, ?_, ?_⟩
  · intro h
    simp [SportBot.book, hlog, hdf, h]
  · intro s rest h
    simp [SportBot.book, hlog, hdf, h]
  · simp [List.filter_eq_nil_iff]

/-- Claim C10 witness: on the one-row table for 2024-01-10, booking the exact
timestamp sends one request for calendar id "calendar-42", and booking a
timestamp with no matching slot raises IndexError(slot_not_found) with no
request sent; the date prefix of "2024-01-10 18:00:00" is "2024-01-10". -/
theorem C10_book_revalidates_witness :
    SportBot.book { is_logged_in := true, df_activities := some [] } demo_table
        (fun _ => Except.ok ()) "Yoga" "2024-01-10 18:00:00" =
      ({ is_logged_in := true, df_activities := some [] },
       [BookEv.slots_fetch "Yoga" "2024-01-10", BookEv.booking_request "calendar-42"],
       Except.ok ())
    ∧ SportBot.book { is_logged_in := true, df_activities := some [] } demo_table
        (fun _ => Except.ok ()) "Yoga" "2024-01-10 19:00:00" =
      ({ is_logged_in := true, df_activities := some [] },
       [BookEv.slots_fetch "Yoga" "2024-01-10"],
       Except.error (PyExn.indexError
         (ErrorMessages.slot_not_found "Yoga" "2024-01-10 19:00:00"))) := by
  have hdp : date_part "2024-01-10 18:00:00" = "2024-01-10" := by decide
  have hdp2 : date_part "2024-01-10 19:00:00" = "2024-01-10" := by decide
  refine ⟨?_, ?_⟩
  · have h := (C10_book_revalidates { is_logged_in := true, df_activities := some [] }
      demo_table (fun _ => Except.ok ()) "Yoga" "2024-01-10 18:00:00" [] rfl rfl).2.1
      { start_timestamp := "2024-01-10 18:00:00", id_activity_calendar := "calendar-42" } []
      (by rw [hdp]; decide)
    rw [hdp] at h
    exact h
  · have h := (C10_book_revalidates { is_logged_in := true, df_activities := some [] }
      demo_table (fun _ => Except.ok ()) "Yoga" "2024-01-10 19:00:00" [] rfl rfl).1
      (by rw [hdp2]; decide)
    rw [hdp2] at h
    exact h

end PySportBot
